import Mathlib

/-!
# Verification of the path-router-express response pipeline

Shallow embedding of `src/index.ts` (two near-duplicate variants are present
in the repository source; where they differ both are modelled, suffixed `V1`
for the first variant, lines 1-203, and `V2` for the second, lines 205-end).

JavaScript runtime values that flow through the router are modelled by
`JSVal`; the response sink is modelled as a trace of `Effect`s.  `Option` on
a result models a thrown exception where the throw aborts everything we
observe; where partial effects before a throw matter (the error interceptor)
we use `CatchOutcome`, which keeps the effects performed before the throw.
-/

set_option autoImplicit false

namespace PathRouter

/-- A JavaScript runtime value, as far as the router inspects one:
`undefined`, `null`, booleans, numbers, strings, arrays and plain objects
(association list of own enumerable string keys, in insertion order).
NaN and exotic objects are not needed by any modelled code path. -/
inductive JSVal where
  | undefined
  | null
  | bool (b : Bool)
  | num (n : Int)
  | str (s : String)
  | arr (elems : List JSVal)
  | obj (fields : List (String × JSVal))

/-- JS truthiness: `undefined`, `null`, `false`, `0` and `""` are falsy;
every array and object is truthy. -/
def truthy : JSVal → Bool
  | .undefined => false
  | .null => false
  | .bool b => b
  | .num n => n != 0
  | .str s => s != ""
  | .arr _ => true
  | .obj _ => true

/-- `typeof v === "object"`: true for `null`, arrays and objects. -/
def typeofObject : JSVal → Bool
  | .null => true
  | .arr _ => true
  | .obj _ => true
  | _ => false

/-- `typeof v === "string"`. -/
def typeofString : JSVal → Bool
  | .str _ => true
  | _ => false

/-- `typeof v === "number"`. -/
def typeofNumber : JSVal → Bool
  | .num _ => true
  | _ => false

/-- First binding of key `k` in an object's field list, `undefined` when
missing (JS objects have unique keys; the model keeps the list as written). -/
def lookupField (fields : List (String × JSVal)) (k : String) : JSVal :=
  match fields.find? (fun kv => kv.1 == k) with
  | some kv => kv.2
  | none => .undefined

/-- Property read `v[k]` on a base that is not `null`/`undefined`: objects
look up the key, primitives and arrays yield `undefined` (boxing; array
index/length properties are never read by the router). Reads on
`null`/`undefined` throw in JS; every modelled read site is guarded, so the
total `undefined` default here is never observable. -/
def propOr : JSVal → String → JSVal
  | .obj fs, k => lookupField fs k
  | _, _ => .undefined

/-- Property write `v[k] = x`: objects overwrite the first binding of the
key or append a new one.  A write on an array stores an expando property
that `JSON.stringify` does not serialize, so at the level of the observable
JSON body it is the identity; primitives silently drop writes. -/
def setProp : JSVal → String → JSVal → JSVal
  | .obj fs, k, v =>
      .obj (if fs.any (fun kv => kv.1 == k)
            then fs.map (fun kv => if kv.1 == k then (k, v) else kv)
            else fs ++ [(k, v)])
  | w, _, _ => w

/-- The structured result consumed by the response materializer
(`IResult<T>` / `Result<T>` in the source).  Every field is a runtime
`JSVal`; an absent field is `undefined`. -/
structure RResult where
  json : JSVal := .undefined
  binary : JSVal := .undefined
  cookies : JSVal := .undefined
  headers : JSVal := .undefined
  redirect : JSVal := .undefined
  status : JSVal := .undefined
  count : JSVal := .undefined
  debug : JSVal := .undefined
  content : JSVal := .undefined
  text : JSVal := .undefined
  stream : JSVal := .undefined

/-- One observable action on the express response sink (or the logger). -/
inductive Effect where
  | setCookie (name : String) (value options : JSVal)
  | setHeader (name : String) (value : JSVal)
  | redirectTo (target : String)
  | setStatus (code : JSVal)
  | contentType (value : String)
  | endBody (body : JSVal)
  | jsonBody (body : JSVal)
  | pipeStream
  | onStreamEndClose
  | logError (tag : String) (err : JSVal)

/-- Is the value exactly `null`?  (The sites that use this are the ones
where JS would throw a `TypeError` on `null`.) -/
def isNull : JSVal → Bool
  | .null => true
  | _ => false

def strOf : JSVal → String
  | .str s => s
  | _ => ""

def numToString : JSVal → String
  | .num n => toString n
  | _ => ""

/-- `Object.keys(v)` together with the associated values: objects yield
their fields, arrays their index/value pairs.  Only called on values that
pass `typeof === "object"` and are not `null`. -/
def jsOwnEntries : JSVal → List (String × JSVal)
  | .obj fs => fs
  | .arr xs => xs.enum.map (fun p => (toString p.1, p.2))
  | _ => []

/-- Rule 1 of the materializer: one `response.cookie(key, c.value, c.options)`
per entry when `typeof result.cookies === "object"`.  `Object.keys(null)`
throws, as does reading `.value` off a `null`/`undefined` entry: `none`. -/
def cookieEffects (v : JSVal) : Option (List Effect) :=
  if typeofObject v then
    if isNull v then none
    else (jsOwnEntries v).mapM (fun kv =>
      match kv.2 with
      | .null => none
      | .undefined => none
      | c => some (Effect.setCookie kv.1 (propOr c "value") (propOr c "options")))
  else some []

/-- Rule 2 of the materializer: one `response.header(key, value)` per entry
when `typeof result.headers === "object"`; `Object.keys(null)` throws. -/
def headerEffects (v : JSVal) : Option (List Effect) :=
  if typeofObject v then
    if isNull v then none
    else some ((jsOwnEntries v).map (fun kv => Effect.setHeader kv.1 kv.2))
  else some []

def badRequestBody : JSVal :=
  .obj [("error", .obj [("name", .str "badRequest"), ("message", .str "Bad Request")])]

def htmlContentType : String := "text/html; charset=UTF-8"

/-- The JSON value serialized by the json branch: the result's `json` value,
with a `debug` key merged in when the value is truthy, global debug mode is
on and the result carries a truthy `debug` payload (source:
`if (result.json) { if (params.debug && result.debug) { json["debug"] = result.debug; } }`). -/
def jsonOut (debug : Bool) (r : RResult) : JSVal :=
  if truthy r.json then
    if debug && truthy r.debug then setProp r.json "debug" r.debug else r.json
  else r.json

/-- Variant 2's guard before defaulting the content type on a `content`
body: `!result.headers || !result.headers["Content-Type"] && !result.headers["content-type"]`. -/
def contentSetsCT (headers : JSVal) : Bool :=
  !truthy headers ||
    (!truthy (propOr headers "Content-Type") && !truthy (propOr headers "content-type"))

/-- Body selection of the FIRST variant (src lines 144-174): the
`if/else if` chain over `binary`, `json`, `text`, `content`, `stream`, with
the 400 fallback; the content branch always sets the HTML content type.
A `null` stream fires the stream branch and throws at `.pipe`: `none`. -/
def bodyEffectsV1 (debug : Bool) (r : RResult) : Option (List Effect) :=
  if truthy r.binary then
    some [.endBody r.binary]
  else if typeofObject r.json then
    some [.jsonBody (jsonOut debug r)]
  else if typeofString r.text then
    some [.endBody r.text]
  else if typeofString r.content then
    some [.contentType htmlContentType, .endBody r.content]
  else if typeofObject r.stream then
    if isNull r.stream then none else some [.pipeStream, .onStreamEndClose]
  else
    some [.setStatus (.num 400), .jsonBody badRequestBody]

/-- Body selection of the SECOND variant (src lines 347-379): identical to
the first except that the content branch only sets the HTML content type
when `contentSetsCT result.headers` holds. -/
def bodyEffectsV2 (debug : Bool) (r : RResult) : Option (List Effect) :=
  if truthy r.binary then
    some [.endBody r.binary]
  else if typeofObject r.json then
    some [.jsonBody (jsonOut debug r)]
  else if typeofString r.text then
    some [.endBody r.text]
  else if typeofString r.content then
    some ((if contentSetsCT r.headers then [Effect.contentType htmlContentType] else [])
      ++ [.endBody r.content])
  else if typeofObject r.stream then
    if isNull r.stream then none else some [.pipeStream, .onStreamEndClose]
  else
    some [.setStatus (.num 400), .jsonBody badRequestBody]

/-- Full response materializer, first variant: cookies, headers, redirect
early-return, status (default 200), `X-Total-Count`, debug duration header,
then body selection. -/
def materializeV1 (debug : Bool) (elapsedMs : Int) (r : RResult) : Option (List Effect) :=
  match cookieEffects r.cookies, headerEffects r.headers with
  | some ck, some hd =>
    if typeofString r.redirect then
      some (ck ++ hd ++ [.redirectTo (strOf r.redirect)])
    else
      match bodyEffectsV1 debug r with
      | some body =>
        some (ck ++ hd
          ++ [Effect.setStatus (if typeofNumber r.status then r.status else .num 200)]
          ++ (if typeofNumber r.count
              then [Effect.setHeader "X-Total-Count" (.str (numToString r.count))] else [])
          ++ (if debug
              then [Effect.setHeader "X-Request-Duration" (.str (toString elapsedMs))] else [])
          ++ body)
      | none => none
  | _, _ => none

/-- Full response materializer, second variant. -/
def materializeV2 (debug : Bool) (elapsedMs : Int) (r : RResult) : Option (List Effect) :=
  match cookieEffects r.cookies, headerEffects r.headers with
  | some ck, some hd =>
    if typeofString r.redirect then
      some (ck ++ hd ++ [.redirectTo (strOf r.redirect)])
    else
      match bodyEffectsV2 debug r with
      | some body =>
        some (ck ++ hd
          ++ [Effect.setStatus (if typeofNumber r.status then r.status else .num 200)]
          ++ (if typeofNumber r.count
              then [Effect.setHeader "X-Total-Count" (.str (numToString r.count))] else [])
          ++ (if debug
              then [Effect.setHeader "X-Request-Duration" (.str (toString elapsedMs))] else [])
          ++ body)
      | none => none
  | _, _ => none

/-! ## Resolver chain executor and action dispatcher

The handler builds `promises = [Promise.resolve(request), r1(request,response), ...]`
and joins them with `Promise.all`.  A promise is modelled by its eventual
value; the nondeterministic order in which the promises settle is an extra
parameter `order` (the sequence of promise indices in completion order).
`settleAll` runs the join operationally: slots, one per promise, are filled
as each settles; the joined list is read off by slot position. -/

/-- `Promise.all`: promise `i` has eventual value `vals[i]`; `order` lists
the indices in the order they settle; each settling event writes its value
into its positional slot. -/
def settleAll (vals : List JSVal) (order : List Nat) : List JSVal :=
  (order.foldl (fun acc i => acc.set i (some (vals.getD i JSVal.undefined)))
    (List.replicate vals.length (none : Option JSVal))).map (fun o => o.getD JSVal.undefined)

/-- Promise list and join of the FIRST variant (src lines 97-104):
`route.resolves.forEach` is called with no guard, so an absent (`undefined`)
resolves list throws a `TypeError` before any promise is created: `none`.
Resolvers are represented by their resolved values. -/
def chainResultsV1 (req : JSVal) (resolves : Option (List JSVal)) (order : List Nat) :
    Option (List JSVal) :=
  match resolves with
  | none => none
  | some vs => some (settleAll (req :: vs) order)

/-- Promise list and join of the SECOND variant (src lines 299-307):
`if (route.resolves)` guards the loop, so an absent list contributes no
promises beyond `Promise.resolve(request)`. -/
def chainResultsV2 (req : JSVal) (resolves : Option (List JSVal)) (order : List Nat) :
    Option (List JSVal) :=
  some (settleAll (req :: (resolves.getD [])) order)

/-- Where the dispatcher sent the joined results, with the positional
argument list it spread. -/
inductive Dispatched where
  | toAction (name : String) (args : List JSVal)
  | toCallback (args : List JSVal)

def Dispatched.args : Dispatched → List JSVal
  | .toAction _ a => a
  | .toCallback a => a

/-- Truthiness of an optional route `action` string: `if (route.action)`. -/
def truthyActionName : Option String → Bool
  | some s => s != ""
  | none => false

/-- The dispatch step (both variants, src lines 104-108 / 307-311):
`if (route.action) return controller[route.action].apply(controller, results);
return route.callback(...results);`.  `controllerHas` tells which names
resolve to callables on the controller; a missing action or missing
callback throws (`none`). -/
def dispatch (controllerHas : String → Bool) (action : Option String)
    (hasCallback : Bool) (results : List JSVal) : Option Dispatched :=
  if truthyActionName action then
    if controllerHas (action.getD "") then some (.toAction (action.getD "") results)
    else none
  else if hasCallback then some (.toCallback results)
  else none

/-! ## Error interceptor (the `.catch` handler) -/

/-- The structured error returned by an application `onError` mapper
(`IError` / `ErrorResult` in the source); absent fields are `undefined`. -/
structure ErrorData where
  status : JSVal := .undefined
  name : JSVal := .undefined
  message : JSVal := .undefined
  details : JSVal := .undefined

/-- What the catch handler did: the effects it performed, in order, and
whether the handler itself threw partway (leaving the request without a
response body). -/
structure CatchOutcome where
  effects : List Effect
  threw : Bool

/-- The envelope written when the mapper ran:
`{error: {name, message, details}}`, fields passed through as returned. -/
def mappedEnvelope (ed : ErrorData) : JSVal :=
  .obj [("error", .obj [("name", ed.name), ("message", ed.message), ("details", ed.details)])]

/-- The fallback envelope: `{error: {name: "internalError", message}}`. -/
def internalEnvelope (msg : JSVal) : JSVal :=
  .obj [("error", .obj [("name", .str "internalError"), ("message", msg)])]

/-- The fixed component tag passed to `log.error`. -/
def routerTag : String := "[path-router-express]"

/-- `error.message || "Internal Error"` for a non-nullish error value. -/
def messageOrDefault (e : JSVal) : JSVal :=
  if truthy (propOr e "message") then propOr e "message" else .str "Internal Error"

/-- The unmapped fallback of the catch handler (both variants):
`log.error("[path-router-express]", error); response.status(500);
response.json({error:{name:"internalError", message: error.message || "Internal Error"}})`.
When `error` is `null` or `undefined`, evaluating `error.message` throws a
`TypeError` after the log call and the status write, so no body is written
and the handler itself throws. -/
def internalFallback (error : JSVal) : CatchOutcome :=
  match error with
  | .null => { effects := [.logError routerTag .null, .setStatus (.num 500)], threw := true }
  | .undefined => { effects := [.logError routerTag .undefined, .setStatus (.num 500)], threw := true }
  | e =>
    { effects := [.logError routerTag e, .setStatus (.num 500),
        .jsonBody (internalEnvelope (messageOrDefault e))],
      threw := false }

/-- Catch handler of the SECOND variant (src lines 380-404): when
`error && typeof params.onError === "function"`, call
`params.onError(error, request)`, set the status if the mapped status is
truthy, and write the mapped envelope; otherwise fall back. -/
def catchHandlerV2 (onError : Option (JSVal → JSVal → ErrorData))
    (error request : JSVal) : CatchOutcome :=
  match onError with
  | some f =>
    if truthy error then
      let ed := f error request
      { effects := (if truthy ed.status then [Effect.setStatus ed.status] else [])
          ++ [.jsonBody (mappedEnvelope ed)],
        threw := false }
    else internalFallback error
  | none => internalFallback error

/-- Catch handler of the FIRST variant (src lines 175-199): identical
except the mapper is invoked as `params.onError(error)` — the request is
not passed. -/
def catchHandlerV1 (onError : Option (JSVal → ErrorData)) (error : JSVal) : CatchOutcome :=
  match onError with
  | some f =>
    if truthy error then
      let ed := f error
      { effects := (if truthy ed.status then [Effect.setStatus ed.status] else [])
          ++ [.jsonBody (mappedEnvelope ed)],
        threw := false }
    else internalFallback error
  | none => internalFallback error

/-! ## Observables and spec-side reformulations -/

/-- The five body-selecting fields, in the precedence order of the chain. -/
inductive BField where
  | binary
  | json
  | text
  | content
  | stream
deriving DecidableEq

def bodyOrder : List BField := [.binary, .json, .text, .content, .stream]

/-- The chain's guard for each body field: "present" in the sense the
source tests it (`result.binary` truthy, `typeof result.json === "object"`,
`typeof result.text === "string"`, `typeof result.content === "string"`,
`typeof result.stream === "object"`). -/
def fieldPresent (r : RResult) : BField → Bool
  | .binary => truthy r.binary
  | .json => typeofObject r.json
  | .text => typeofString r.text
  | .content => typeofString r.content
  | .stream => typeofObject r.stream

/-- Spec-side: the first field, in precedence order, whose guard holds. -/
def firstPresentBody (r : RResult) : Option BField := bodyOrder.find? (fieldPresent r)

/-- Which branch of the body if/else chain fires (`none` = the 400
fallback); shared by both variants, whose chains have identical guards. -/
def bodyBranch (r : RResult) : Option BField :=
  if truthy r.binary then some .binary
  else if typeofObject r.json then some .json
  else if typeofString r.text then some .text
  else if typeofString r.content then some .content
  else if typeofObject r.stream then some .stream
  else none

/-- Overwrite every body field strictly after `f` in precedence order
(used to state that later fields cannot influence the selected body). -/
def replaceAfter : BField → RResult → JSVal → JSVal → JSVal → JSVal → RResult
  | .binary, r, vj, vt, vc, vs => { r with json := vj, text := vt, content := vc, stream := vs }
  | .json, r, _, vt, vc, vs => { r with text := vt, content := vc, stream := vs }
  | .text, r, _, _, vc, vs => { r with content := vc, stream := vs }
  | .content, r, _, _, _, vs => { r with stream := vs }
  | .stream, r, _, _, _, _ => r

/-- Spec-side description of "a content-type header was already set via the
result's headers mapping", as the code actually decides it: a truthy value
under the exact key `"Content-Type"` or `"content-type"`. -/
def specHasContentType (headers : JSVal) : Bool :=
  truthy (propOr headers "Content-Type") || truthy (propOr headers "content-type")

/-- The status codes passed to `response.status`, in order. -/
def statusWrites (effs : List Effect) : List JSVal :=
  effs.filterMap (fun e => match e with | .setStatus v => some v | _ => none)

/-- The status the response ends up with: the last one set. -/
def lastStatus (effs : List Effect) : Option JSVal := (statusWrites effs).getLast?

def isLogEffect : Effect → Bool
  | .logError _ _ => true
  | _ => false

/-- Effects that write response output (a JSON body, a raw body, or a
redirect). -/
def isBodyWrite : Effect → Bool
  | .jsonBody _ => true
  | .endBody _ => true
  | .redirectTo _ => true
  | _ => false

/-- A concrete application error mapper in the second variant's shape,
used as a test vehicle: maps any error to a 404 `notFound` with the
error's own `details` passed through. -/
def sampleMapper2 : JSVal → JSVal → ErrorData :=
  fun e _ => { status := .num 404, name := .str "notFound", details := propOr e "details" }

/-- The same mapper in the first variant's one-argument shape. -/
def sampleMapper1 : JSVal → ErrorData :=
  fun e => { status := .num 404, name := .str "notFound", details := propOr e "details" }

/-- A concrete truthy error value carrying a message. -/
def sampleError : JSVal := .obj [("message", .str "boom")]

/-- A concrete result with `json: null` and every later body field
present, used to witness the json-null branch. -/
def jsonNullResult : RResult :=
  { json := .null, text := .str "t", content := .str "c", stream := .obj [], debug := .bool true }

/-! ## Helper lemmas -/

lemma foldl_set_length {α : Type} (f : Nat → α) (l : List Nat) :
    ∀ acc : List α, (l.foldl (fun a i => a.set i (f i)) acc).length = acc.length := by
  induction l with
  | nil => intro acc; rfl
  | cons i t ih => intro acc; rw [List.foldl_cons, ih, List.length_set]

lemma foldl_set_getElem? {α : Type} (f : Nat → α) (l : List Nat) :
    ∀ (acc : List α) (j : Nat),
      (l.foldl (fun a i => a.set i (f i)) acc)[j]?
        = if j ∈ l ∧ j < acc.length then some (f j) else acc[j]? := by
  induction l with
  | nil => intro acc j; simp
  | cons i t ih =>
    intro acc j
    rw [List.foldl_cons, ih, List.length_set]
    by_cases hl : j < acc.length
    · by_cases ht : j ∈ t
      · simp [ht, hl]
      · by_cases hi : i = j
        · subst hi
          simp [ht, hl, List.getElem?_set]
        · simp [ht, hl, List.getElem?_set, hi, Ne.symm hi]
    · simp only [hl, and_false, if_false]
      rw [List.getElem?_set]
      by_cases hi : i = j
      · subst hi
        simp [hl]
        omega
      · simp [hi]

/-- `Promise.all` joins by slot position: whenever the settle order is a
permutation of the promise indices, the joined list is the value list in
declaration order, independent of completion order. -/
lemma settleAll_perm (vals : List JSVal) (order : List Nat)
    (h : order.Perm (List.range vals.length)) :
    settleAll vals order = vals := by
  apply List.ext_getElem?
  intro j
  unfold settleAll
  rw [List.getElem?_map,
    foldl_set_getElem? (fun i => some (vals.getD i JSVal.undefined)) order, List.length_replicate]
  by_cases hj : j < vals.length
  · have hmem : j ∈ order := h.mem_iff.mpr (List.mem_range.mpr hj)
    simp [hmem, hj, List.getD_eq_getElem?_getD, List.getElem?_eq_getElem hj]
  · have hmem : j ∉ order := fun hm => hj (List.mem_range.mp (h.mem_iff.mp hm))
    simp [hmem, List.getElem?_replicate, hj,
      List.getElem?_eq_none (le_of_not_lt hj)]

/-- The code's content-type guard is exactly the negation of the exact-key
check `specHasContentType`. -/
lemma contentSetsCT_eq_not_spec (h : JSVal) :
    contentSetsCT h = !specHasContentType h := by
  cases h <;> simp [contentSetsCT, specHasContentType, truthy, propOr]

/-- The if/else chain fires exactly the first field (in precedence order)
whose guard holds. -/
lemma firstPresent_eq_bodyBranch (r : RResult) : firstPresentBody r = bodyBranch r := by
  cases hb : truthy r.binary <;> cases hj : typeofObject r.json <;>
    cases ht : typeofString r.text <;> cases hc : typeofString r.content <;>
      cases hs : typeofObject r.stream <;>
        simp [firstPresentBody, bodyOrder, bodyBranch, fieldPresent, List.find?,
          hb, hj, ht, hc, hs]

/-! ## Claim theorems -/

/-- C1: for every structured result, the response materializer selects the
body by evaluating the fields in the fixed precedence order `binary`,
`json`, `text`, `content`, `stream` (each "present" in the sense of its
guard in the source); the first present field wins, exactly one body branch
fires (`bodyBranch` is a single value, and both variants' body effects are
those of that branch alone), and overwriting every later field arbitrarily
does not change the body effects of either variant. -/
theorem C1_body_precedence (debug : Bool) (r : RResult) (f : BField)
    (hf : firstPresentBody r = some f) (vj vt vc vs : JSVal) :
    bodyBranch r = some f ∧
    bodyBranch (replaceAfter f r vj vt vc vs) = some f ∧
    bodyEffectsV1 debug (replaceAfter f r vj vt vc vs) = bodyEffectsV1 debug r ∧
    bodyEffectsV2 debug (replaceAfter f r vj vt vc vs) = bodyEffectsV2 debug r := by
  rw [firstPresent_eq_bodyBranch] at hf
  refine ⟨hf, ?_, ?_, ?_⟩ <;>
    · cases f <;>
        · unfold bodyBranch at hf
          split_ifs at hf <;>
            simp_all [bodyBranch, bodyEffectsV1, bodyEffectsV2, replaceAfter, jsonOut]

/-- Witness for C1 at a concrete result whose first present field is
`json`, with later fields overwritten. -/
theorem C1_body_precedence_witness :
    bodyBranch { json := .obj [("a", .num 1)], text := .str "zap" } = some .json ∧
    bodyBranch (replaceAfter .json { json := .obj [("a", .num 1)], text := .str "zap" }
        (.str "x") (.str "x") (.str "x") (.str "x")) = some .json ∧
    bodyEffectsV1 true (replaceAfter .json { json := .obj [("a", .num 1)], text := .str "zap" }
        (.str "x") (.str "x") (.str "x") (.str "x"))
      = bodyEffectsV1 true { json := .obj [("a", .num 1)], text := .str "zap" } ∧
    bodyEffectsV2 true (replaceAfter .json { json := .obj [("a", .num 1)], text := .str "zap" }
        (.str "x") (.str "x") (.str "x") (.str "x"))
      = bodyEffectsV2 true { json := .obj [("a", .num 1)], text := .str "zap" } :=
  C1_body_precedence true { json := .obj [("a", .num 1)], text := .str "zap" } .json rfl
    (.str "x") (.str "x") (.str "x") (.str "x")

/-- C2: for every route with resolver values `[v1, ..., vn]` and any order
in which the `n+1` promises settle (any permutation of their indices), the
joined input list is `(request, v1, ..., vn)` in declaration order — the
completion order does not matter — and whatever the dispatcher invokes
receives exactly that list as its positional arguments. -/
theorem C2_declaration_order (req : JSVal) (vals : List JSVal) (order : List Nat)
    (h : order.Perm (List.range (vals.length + 1)))
    (controllerHas : String → Bool) (action : Option String) (hasCallback : Bool)
    (d : Dispatched)
    (hd : dispatch controllerHas action hasCallback
        ((chainResultsV2 req (some vals) order).getD []) = some d) :
    chainResultsV2 req (some vals) order = some (req :: vals) ∧
    chainResultsV1 req (some vals) order = some (req :: vals) ∧
    d.args = req :: vals := by
  have hs : settleAll (req :: vals) order = req :: vals := by
    apply settleAll_perm
    simpa using h
  refine ⟨by simp [chainResultsV2, hs], by simp [chainResultsV1, hs], ?_⟩
  simp only [chainResultsV2, Option.getD_some, hs] at hd
  unfold dispatch at hd
  split_ifs at hd <;> (injection hd with hd; try (cases hd; rfl))

/-- Witness for C2: two resolvers settling in the order 3rd, 1st, 2nd still
yield `(request, v1, v2)`. -/
theorem C2_declaration_order_witness :
    chainResultsV2 (.str "request") (some [.num 1, .num 2]) [2, 0, 1]
      = some [.str "request", .num 1, .num 2] ∧
    chainResultsV1 (.str "request") (some [.num 1, .num 2]) [2, 0, 1]
      = some [.str "request", .num 1, .num 2] ∧
    (Dispatched.toCallback [.str "request", .num 1, .num 2]).args
      = [.str "request", .num 1, .num 2] :=
  C2_declaration_order (.str "request") [.num 1, .num 2] [2, 0, 1] (by decide)
    (fun _ => false) none true (.toCallback [.str "request", .num 1, .num 2]) rfl

/-- The observable outcome of the 400 fallback: whatever effects precede
it, the response's final status is 400 and the last write is the
`badRequest` JSON body. -/
lemma fallback_observables (pre : List Effect) :
    lastStatus (pre ++ [Effect.setStatus (.num 400), Effect.jsonBody badRequestBody])
      = some (.num 400) ∧
    (pre ++ [Effect.setStatus (.num 400), Effect.jsonBody badRequestBody]).getLast?
      = some (.jsonBody badRequestBody) := by
  constructor
  · unfold lastStatus statusWrites
    rw [List.filterMap_append]
    simp [List.getLast?_append]
  · simp [List.getLast?_append]

/-- C3: for every structured result with none of `binary`, `json`, `text`,
`content`, `stream` present (in the sense of the chain's guards), and no
redirect (which would end processing before body selection), both variants
set status 400 — overriding any status the result carried, including 200 —
and write `{"error":{"name":"badRequest","message":"Bad Request"}}` as the
final response write.  The cookie/header hypotheses only exclude the
`Object.keys(null)` crash, which happens before body selection. -/
theorem C3_no_body_field_bad_request (debug : Bool) (elapsedMs : Int) (r : RResult)
    (hb : truthy r.binary = false) (hj : typeofObject r.json = false)
    (ht : typeofString r.text = false) (hc : typeofString r.content = false)
    (hs : typeofObject r.stream = false) (hr : typeofString r.redirect = false)
    (hck : cookieEffects r.cookies ≠ none) (hhd : headerEffects r.headers ≠ none) :
    materializeV1 debug elapsedMs r ≠ none ∧
    lastStatus ((materializeV1 debug elapsedMs r).getD []) = some (.num 400) ∧
    ((materializeV1 debug elapsedMs r).getD []).getLast? = some (.jsonBody badRequestBody) ∧
    materializeV2 debug elapsedMs r ≠ none ∧
    lastStatus ((materializeV2 debug elapsedMs r).getD []) = some (.num 400) ∧
    ((materializeV2 debug elapsedMs r).getD []).getLast? = some (.jsonBody badRequestBody) := by
  obtain ⟨ck, hck'⟩ := Option.ne_none_iff_exists'.mp hck
  obtain ⟨hdl, hhd'⟩ := Option.ne_none_iff_exists'.mp hhd
  have hbody1 : bodyEffectsV1 debug r
      = some [Effect.setStatus (.num 400), Effect.jsonBody badRequestBody] := by
    simp [bodyEffectsV1, hb, hj, ht, hc, hs]
  have hbody2 : bodyEffectsV2 debug r
      = some [Effect.setStatus (.num 400), Effect.jsonBody badRequestBody] := by
    simp [bodyEffectsV2, hb, hj, ht, hc, hs]
  have e1 : materializeV1 debug elapsedMs r
      = some ((ck ++ hdl
          ++ [Effect.setStatus (if typeofNumber r.status then r.status else .num 200)]
          ++ (if typeofNumber r.count
              then [Effect.setHeader "X-Total-Count" (.str (numToString r.count))] else [])
          ++ (if debug
              then [Effect.setHeader "X-Request-Duration" (.str (toString elapsedMs))] else []))
          ++ [Effect.setStatus (.num 400), Effect.jsonBody badRequestBody]) := by
    unfold materializeV1
    rw [hck', hhd']
    simp [hr, hbody1]
  have e2 : materializeV2 debug elapsedMs r
      = some ((ck ++ hdl
          ++ [Effect.setStatus (if typeofNumber r.status then r.status else .num 200)]
          ++ (if typeofNumber r.count
              then [Effect.setHeader "X-Total-Count" (.str (numToString r.count))] else [])
          ++ (if debug
              then [Effect.setHeader "X-Request-Duration" (.str (toString elapsedMs))] else []))
          ++ [Effect.setStatus (.num 400), Effect.jsonBody badRequestBody]) := by
    unfold materializeV2
    rw [hck', hhd']
    simp [hr, hbody2]
  rw [e1, e2]
  exact ⟨by simp, (fallback_observables _).1, (fallback_observables _).2,
    by simp, (fallback_observables _).1, (fallback_observables _).2⟩

/-- Witness for C3: the empty-ish result `{status: 200}` still ends at
status 400 with the bad-request body, in both variants. -/
theorem C3_no_body_field_bad_request_witness :
    materializeV1 false 0 { status := .num 200 } ≠ none ∧
    lastStatus ((materializeV1 false 0 { status := .num 200 }).getD []) = some (.num 400) ∧
    ((materializeV1 false 0 { status := .num 200 }).getD []).getLast?
      = some (.jsonBody badRequestBody) ∧
    materializeV2 false 0 { status := .num 200 } ≠ none ∧
    lastStatus ((materializeV2 false 0 { status := .num 200 }).getD []) = some (.num 400) ∧
    ((materializeV2 false 0 { status := .num 200 }).getD []).getLast?
      = some (.jsonBody badRequestBody) :=
  C3_no_body_field_bad_request false 0 { status := .num 200 } rfl rfl rfl rfl rfl rfl
    (by simp [cookieEffects, typeofObject]) (by simp [headerEffects, typeofObject])

/-- C4 counterexample: the claim says the content-type check over the
result's headers mapping is case-insensitive, but a `content` result whose
headers carry content-type under the spelling `"CONTENT-TYPE"` is still
overridden to HTML by the second variant (the first variant overrides
unconditionally).  The full effect trace shows the `contentType` override
firing after the explicit header was set. -/
theorem C4_counterexample_case_sensitive_check :
    materializeV2 false 0
        { content := .str "<p>hi</p>", headers := .obj [("CONTENT-TYPE", .str "text/plain")] }
      = some [Effect.setHeader "CONTENT-TYPE" (.str "text/plain"),
          Effect.setStatus (.num 200),
          Effect.contentType htmlContentType,
          Effect.endBody (.str "<p>hi</p>")] := rfl

/-- C4 amended: for a `content`-selected body, the second variant skips the
HTML default exactly when the result's headers mapping carries a truthy
value under one of the exact keys `"Content-Type"` or `"content-type"`
(case-sensitive, those two spellings only); the first variant sets the HTML
content type unconditionally. -/
theorem C4_amended_content_type_check (debug : Bool) (r : RResult)
    (hb : truthy r.binary = false) (hj : typeofObject r.json = false)
    (ht : typeofString r.text = false) (hc : typeofString r.content = true) :
    bodyEffectsV2 debug r
      = some ((if specHasContentType r.headers then []
          else [Effect.contentType htmlContentType]) ++ [Effect.endBody r.content]) ∧
    bodyEffectsV1 debug r
      = some [Effect.contentType htmlContentType, Effect.endBody r.content] := by
  constructor
  · simp only [bodyEffectsV2, hb, hj, ht, hc, contentSetsCT_eq_not_spec,
      Bool.false_eq_true, if_false, if_true]
    cases specHasContentType r.headers <;> simp
  · simp [bodyEffectsV1, hb, hj, ht, hc]

/-- Witness for the amended C4: an exact-key `content-type` header is
honoured by the second variant (no HTML override) while the first variant
overrides it anyway. -/
theorem C4_amended_content_type_check_witness :
    bodyEffectsV2 false
        { content := .str "<p>hi</p>", headers := .obj [("content-type", .str "text/plain")] }
      = some ((if specHasContentType (.obj [("content-type", .str "text/plain")]) then []
          else [Effect.contentType htmlContentType]) ++ [Effect.endBody (.str "<p>hi</p>")]) ∧
    bodyEffectsV1 false
        { content := .str "<p>hi</p>", headers := .obj [("content-type", .str "text/plain")] }
      = some [Effect.contentType htmlContentType, Effect.endBody (.str "<p>hi</p>")] :=
  C4_amended_content_type_check false
    { content := .str "<p>hi</p>", headers := .obj [("content-type", .str "text/plain")] }
    rfl rfl rfl rfl

/-- C5 counterexample: a chain rejection with the falsy error value `null`
while an `onError` mapper IS configured does not invoke the mapper at all —
the guard `if (error && typeof params.onError === "function")` fails, the
request falls into the unmapped branch, and the interceptor then throws on
`error.message`, so the mapped 404 envelope is never written. -/
theorem C5_counterexample_falsy_error_skips_mapper :
    (catchHandlerV2 (some fun _ _ => { status := .num 404, name := .str "notFound" })
        JSVal.null (.str "req")).effects
      = [.logError routerTag .null, .setStatus (.num 500)] ∧
    (catchHandlerV2 (some fun _ _ => { status := .num 404, name := .str "notFound" })
        JSVal.null (.str "req")).threw = true :=
  ⟨rfl, rfl⟩

/-- C5 amended: for every rejection with a TRUTHY error value when a mapper
is configured, the mapper is invoked — with the error and the original
request in the second variant, with the error only in the first — the
mapped status is set exactly when it is truthy, and the envelope
`{error: {name, message, details}}` is written with the mapped fields
passed through as returned, with no defaulting even when `undefined`. -/
theorem C5_amended_mapped_error (f : JSVal → JSVal → ErrorData) (g : JSVal → ErrorData)
    (error request : JSVal) (h : truthy error = true) :
    (catchHandlerV2 (some f) error request).threw = false ∧
    (catchHandlerV2 (some f) error request).effects
      = (if truthy (f error request).status
          then [Effect.setStatus (f error request).status] else [])
        ++ [.jsonBody (mappedEnvelope (f error request))] ∧
    (catchHandlerV1 (some g) error).threw = false ∧
    (catchHandlerV1 (some g) error).effects
      = (if truthy (g error).status then [Effect.setStatus (g error).status] else [])
        ++ [.jsonBody (mappedEnvelope (g error))] := by
  simp [catchHandlerV2, catchHandlerV1, h]

/-- Witness for the amended C5 at a concrete truthy error and the sample
404 `notFound` mapper, in both variants. -/
theorem C5_amended_mapped_error_witness :
    (catchHandlerV2 (some sampleMapper2) sampleError (.str "req")).threw = false ∧
    (catchHandlerV2 (some sampleMapper2) sampleError (.str "req")).effects
      = (if truthy (sampleMapper2 sampleError (.str "req")).status
          then [Effect.setStatus (sampleMapper2 sampleError (.str "req")).status] else [])
        ++ [.jsonBody (mappedEnvelope (sampleMapper2 sampleError (.str "req")))] ∧
    (catchHandlerV1 (some sampleMapper1) sampleError).threw = false ∧
    (catchHandlerV1 (some sampleMapper1) sampleError).effects
      = (if truthy (sampleMapper1 sampleError).status
          then [Effect.setStatus (sampleMapper1 sampleError).status] else [])
        ++ [.jsonBody (mappedEnvelope (sampleMapper1 sampleError))] :=
  C5_amended_mapped_error sampleMapper2 sampleMapper1 sampleError (.str "req") rfl

/-- C6 counterexample: the claim quantifies over every rejection with no
mapper configured, but a rejection with the value `null` is logged and gets
status 500, and then the interceptor throws on `error.message` — the
`internalError` envelope is never written. -/
theorem C6_counterexample_null_rejection :
    (catchHandlerV2 none JSVal.null (.str "req")).effects
      = [.logError routerTag .null, .setStatus (.num 500)] ∧
    (catchHandlerV2 none JSVal.null (.str "req")).threw = true :=
  ⟨rfl, rfl⟩

/-- C6 amended: for every rejection with a TRUTHY error value when no
mapper is configured, both variants log the error exactly once through the
logging collaborator with the fixed tag `"[path-router-express]"`, set
status 500, and write the envelope with name `"internalError"` and message
equal to the error's own message when that message is truthy (a non-empty
string under `error.message || "Internal Error"`), else `"Internal Error"`. -/
theorem C6_amended_internal_error (error request : JSVal) (h : truthy error = true) :
    (catchHandlerV2 none error request).threw = false ∧
    (catchHandlerV2 none error request).effects
      = [.logError routerTag error, .setStatus (.num 500),
         .jsonBody (internalEnvelope (messageOrDefault error))] ∧
    (catchHandlerV2 none error request).effects.countP isLogEffect = 1 ∧
    (catchHandlerV1 none error).effects = (catchHandlerV2 none error request).effects ∧
    (catchHandlerV1 none error).threw = false := by
  cases error <;>
    simp_all [catchHandlerV2, catchHandlerV1, internalFallback, truthy, isLogEffect,
      List.countP_cons, List.countP_nil]

/-- Witness for the amended C6 at a concrete error object carrying the
message `"boom"`. -/
theorem C6_amended_internal_error_witness :
    (catchHandlerV2 none sampleError (.str "req")).threw = false ∧
    (catchHandlerV2 none sampleError (.str "req")).effects
      = [.logError routerTag sampleError, .setStatus (.num 500),
         .jsonBody (internalEnvelope (messageOrDefault sampleError))] ∧
    (catchHandlerV2 none sampleError (.str "req")).effects.countP isLogEffect = 1 ∧
    (catchHandlerV1 none sampleError).effects
      = (catchHandlerV2 none sampleError (.str "req")).effects ∧
    (catchHandlerV1 none sampleError).threw = false :=
  C6_amended_internal_error sampleError (.str "req") rfl

/-- C7: the claim states the interceptor never throws and always responds
for EVERY rejection value, including `null` and `undefined`, but on those
two values the fallback branch evaluates `error.message` and throws a
`TypeError` (with or without a mapper configured) and performs no response
write at all — the code contradicts the interceptor contract it is there to
provide. -/
theorem C7_interceptor_throws_on_nullish_rejection :
    (catchHandlerV2 none JSVal.undefined (.str "req")).threw = true ∧
    (catchHandlerV2 (some sampleMapper2) JSVal.undefined (.str "req")).threw = true ∧
    (catchHandlerV1 none JSVal.undefined).threw = true ∧
    (catchHandlerV1 (some sampleMapper1) JSVal.null).threw = true ∧
    (catchHandlerV2 none JSVal.undefined (.str "req")).effects.countP isBodyWrite = 0 ∧
    (catchHandlerV1 none JSVal.undefined).effects.countP isBodyWrite = 0 :=
  ⟨rfl, rfl, rfl, rfl, rfl, rfl⟩

/-- C8: the claim says absent (`undefined`) or empty `resolves` still
reaches dispatch with the single-element input list; the second variant
guards the loop and satisfies it, and both variants satisfy it for an empty
list, but the FIRST variant calls `route.resolves.forEach` unguarded and
throws a `TypeError` on an absent list before any resolution or dispatch —
contradicting its own optional `resolves?:` declaration. -/
theorem C8_absent_resolves_variant1_crashes :
    chainResultsV1 (.str "request") none [0] = none ∧
    chainResultsV2 (.str "request") none [0] = some [.str "request"] ∧
    chainResultsV1 (.str "request") (some []) [0] = some [.str "request"] ∧
    chainResultsV2 (.str "request") (some []) [0] = some [.str "request"] ∧
    dispatch (fun _ => false) none true [.str "request"]
      = some (.toCallback [.str "request"]) :=
  ⟨rfl, rfl, rfl, rfl, rfl⟩

/-- C9 counterexample: a route with BOTH `action` and `callback` set, where
the action name is the empty string, dispatches to the callback — the guard
is `if (route.action)`, a truthiness test, not a presence test — even
though the controller has a method for every name. -/
theorem C9_counterexample_empty_action_name :
    dispatch (fun _ => true) (some "") true [.str "req"]
      = some (.toCallback [.str "req"]) := rfl

/-- C9 amended: for every route with both `action` and `callback` set,
where the action name is a non-empty string naming a controller method,
dispatch invokes the controller action with the input list and never the
callback. -/
theorem C9_amended_action_precedence (controllerHas : String → Bool) (a : String)
    (hasCallback : Bool) (results : List JSVal)
    (ha : a ≠ "") (hc : controllerHas a = true) :
    dispatch controllerHas (some a) hasCallback results = some (.toAction a results) := by
  have ht : truthyActionName (some a) = true := by
    simp [truthyActionName, bne_iff_ne, ha]
  simp [dispatch, ht, hc]

/-- Witness for the amended C9: action `"getUser"` wins over a configured
callback. -/
theorem C9_amended_action_precedence_witness :
    dispatch (fun _ => true) (some "getUser") true [.str "req"]
      = some (.toAction "getUser" [.str "req"]) :=
  C9_amended_action_precedence (fun _ => true) "getUser" true [.str "req"]
    (by decide) rfl

/-- C10: for every structured result whose `json` field is `null`, the json
branch still fires (`typeof null === "object"`), the serialized body is
exactly `null` (the debug merge is skipped because `if (result.json)` is
falsy), and any `text`, `content` or `stream` field also present is
ignored — in both variants, for any debug mode. -/
theorem C10_json_null_fires (debug : Bool) (r : RResult)
    (hj : r.json = .null) (hb : truthy r.binary = false) :
    bodyEffectsV1 debug r = some [.jsonBody .null] ∧
    bodyEffectsV2 debug r = some [.jsonBody .null] := by
  have h1 : typeofObject JSVal.null = true := rfl
  have h2 : truthy JSVal.null = false := rfl
  constructor <;>
    simp [bodyEffectsV1, bodyEffectsV2, hb, hj, jsonOut, h1, h2]

/-- Witness for C10: `json: null` with `text`, `content` and `stream` all
present and debug mode on still writes the JSON body `null`. -/
theorem C10_json_null_fires_witness :
    bodyEffectsV1 true jsonNullResult = some [.jsonBody .null] ∧
    bodyEffectsV2 true jsonNullResult = some [.jsonBody .null] :=
  C10_json_null_fires true jsonNullResult rfl rfl

end PathRouter
